import Mathlib

/-
Verification of the LetTalky peer registry and proximity-discovery service
(`server.js`): registration validation, distance computation, staleness
eviction and ranked nearby-peer queries.

Modelling conventions:
  * JS numbers are modelled as rationals (ℚ); NaN and signed zero are not
    modelled.  Timestamps (`Date.now()`) are integers (ℤ, milliseconds).
  * A JS value that may be absent or of the wrong type is an `Option`:
    `none` stands for `undefined`, `null` or a value of the wrong `typeof`.
  * `calculateDistance` returns `Infinity` on malformed input; its result
    type is `WithTop ℚ` (⊤ = Infinity).  The transcendental haversine core
    is a parameter `core` of the registry operations, so that theorems about
    registry logic hold for the actual floating-point haversine as well;
    the real-valued formula itself is embedded separately for the
    symmetry property.
  * The `peers` Map is a list of records in insertion order; `Map.get` is
    first-match lookup, `Map.set` replaces in place or appends.
  * `Array.prototype.sort` (ES2019: stable) with a comparator `cmp` is
    modelled by the stable sort `List.insertionSort` with the relation
    `fun a b => cmp a b ≤ 0`.
  * `trim` and `toLowerCase` are modelled by `jsTrim` and `jsToLower`,
    defined over the string's character list; this matches the JS
    behaviour on ASCII data (the username character class is ASCII).
    `length` is Lean's `String.length` (code points; JS counts UTF-16
    units, which agree on ASCII data).
-/

namespace LetTalky

/-- `const PEER_TIMEOUT = 8 * 60 * 1000` (milliseconds). -/
def PEER_TIMEOUT : ℤ := 8 * 60 * 1000

/-- `const MAX_PEERS_PER_USER = 100`. -/
def MAX_PEERS_PER_USER : ℕ := 100

/-- `const DEFAULT_RANGE = 5000`. -/
def DEFAULT_RANGE : ℤ := 5000

/-- `const MAX_USERNAME_LENGTH = 20`. -/
def MAX_USERNAME_LENGTH : ℕ := 20

/-- `const MIN_USERNAME_LENGTH = 3`. -/
def MIN_USERNAME_LENGTH : ℕ := 3

/-- `Math.round`: round half toward positive infinity, `⌊q + 1/2⌋`.  Written
with integer arithmetic on the reduced fraction so that it evaluates by
kernel reduction; `jsRound_eq` proves it equal to the floor formula. -/
def jsRound (q : ℚ) : ℤ := Int.fdiv (2 * q.num + q.den) (2 * q.den)

/-- `parseFloat(x.toFixed(6))`: round to 6 decimal places, ties toward
positive infinity (ECMA-262 `toFixed` picks the larger candidate on ties),
i.e. `⌊q·10⁶ + 1/2⌋ / 10⁶`.  Written with integer arithmetic so that it
evaluates by kernel reduction; `roundTo6_eq` proves it equal to the floor
formula. -/
def roundTo6 (q : ℚ) : ℚ :=
  Rat.divInt (Int.fdiv (2 * (q.num * 1000000) + q.den) (2 * q.den)) 1000000

/-- `parseInt(s)` (base 10): skip leading whitespace, optional sign, then the
longest digit prefix; `none` models `NaN` (no digits).  The hexadecimal
`0x` form of `parseInt` is not modelled. -/
def jsParseInt (s : String) : Option ℤ :=
  let cs := s.data.dropWhile (fun c => c.isWhitespace)
  let signAndRest : ℤ × List Char :=
    match cs with
    | '-' :: rest => (-1, rest)
    | '+' :: rest => (1, rest)
    | _ => (1, cs)
  let ds := signAndRest.2.takeWhile (fun c => c.isDigit)
  if ds.isEmpty then none
  else some (signAndRest.1 * (ds.foldl (fun acc c => acc * 10 + ((c.toNat - 48 : ℕ) : ℤ)) 0))

/-- JS `String.prototype.trim` (ASCII whitespace reading): drop whitespace
from both ends, written over the character list so that it evaluates by
kernel reduction (it agrees with `String.trim` on ASCII data). -/
def jsTrim (s : String) : String :=
  ⟨((s.data.dropWhile (fun c => c.isWhitespace)).reverse.dropWhile
      (fun c => c.isWhitespace)).reverse⟩

/-- JS `String.prototype.toLowerCase` (ASCII reading): lower-case every
character (it agrees with `String.toLower` on ASCII data). -/
def jsToLower (s : String) : String := ⟨s.data.map Char.toLower⟩

/-- A raw `location` object from a request body: each coordinate field is
`none` when absent or not of JS type `number`. -/
structure RawLocation where
  latitude : Option ℚ
  longitude : Option ℚ
  accuracy : Option ℚ
deriving DecidableEq, Repr, Inhabited

/-- A stored, validated location (`peerData.location`). -/
structure StoredLocation where
  latitude : ℚ
  longitude : ℚ
  accuracy : ℚ
deriving DecidableEq, Repr, Inhabited

/-- View a stored location as a raw location object (all fields present
and numeric), as happens when a stored record is passed to
`calculateDistance`. -/
def StoredLocation.toRaw (l : StoredLocation) : RawLocation :=
  { latitude := some l.latitude, longitude := some l.longitude, accuracy := some l.accuracy }

/-- `calculateDistance(loc1, loc2)`: returns `Infinity` (⊤ / the `infinity`
argument) when either argument is missing, has a non-numeric latitude or
longitude, or has `|latitude| > 90` or `|longitude| > 180`; otherwise the
haversine formula, abstracted here as `core` (instantiated with the real
formula in `calculateDistanceR`).  The result type is a parameter so the
same guard structure serves the rational registry model and the real
formula. -/
def calculateDistance {α : Type} (infinity : α) (core : ℚ → ℚ → ℚ → ℚ → α)
    (loc1 loc2 : Option RawLocation) : α :=
  match loc1, loc2 with
  | some l1, some l2 =>
    match l1.latitude, l1.longitude, l2.latitude, l2.longitude with
    | some lat1, some lon1, some lat2, some lon2 =>
      if 90 < |lat1| ∨ 90 < |lat2| ∨ 180 < |lon1| ∨ 180 < |lon2| then infinity
      else core lat1 lon1 lat2 lon2
    | _, _, _, _ => infinity
  | _, _ => infinity

/-- The abstract haversine core used by the registry model: any function from
the two coordinate pairs to a distance (⊤ allowed, though the actual formula
never produces it on valid input). -/
abbrev DistCore := ℚ → ℚ → ℚ → ℚ → WithTop ℚ

/-- One record of the `peers` Map (`peerData` in `POST /register`). -/
structure PeerData where
  peerId : String
  username : String
  avatar : String
  location : StoredLocation
  lastSeen : ℤ
  joinedAt : ℤ
  messageCount : ℕ
  connectionsCount : ℕ
  ip : String
  userAgent : String
  status : String
deriving DecidableEq, Repr, Inhabited

/-- The in-memory `peers` Map, as its list of records in insertion order. -/
abbrev Registry := List PeerData

/-- `peers.get(pid)`. -/
def regGet (reg : Registry) (pid : String) : Option PeerData :=
  reg.find? (fun p => p.peerId == pid)

/-- `peers.set(p.peerId, p)`: replace in place when the key is present,
append otherwise. -/
def regSet (reg : Registry) (p : PeerData) : Registry :=
  if reg.any (fun q => q.peerId == p.peerId) then
    reg.map (fun q => if q.peerId == p.peerId then p else q)
  else reg ++ [p]

/-- `cleanupOldPeers()`: delete every record with `now - lastSeen > PEER_TIMEOUT`. -/
def cleanupOldPeers (now : ℤ) (reg : Registry) : Registry :=
  reg.filter (fun p => !(PEER_TIMEOUT < now - p.lastSeen : Bool))

/-- A `POST /register` request body; `none` fields stand for absent values or
values of the wrong JS type. -/
structure RegisterRequest where
  peerId : Option String
  username : Option String
  avatar : Option String
  location : Option RawLocation
deriving DecidableEq, Repr, Inhabited

/-- The distinct error responses of `POST /register`, one per early return. -/
inductive RegError where
  | invalidPeerId
  | usernameRequired
  | usernameLengthInvalid
  | usernameCharsInvalid
  | locationRequired
  | invalidCoordinates
  | invalidAvatar
  | usernameTaken
deriving DecidableEq, Repr

/-- One character of the class `[a-zA-Z0-9\s\-_.]` (ASCII reading of `\s`). -/
def usernameChar (c : Char) : Bool :=
  (('a' ≤ c) && (c ≤ 'z')) || (('A' ≤ c) && (c ≤ 'Z')) ||
  (('0' ≤ c) && (c ≤ '9')) || c.isWhitespace ||
  (c == '-') || (c == '_') || (c == '.')

/-- `/^[a-zA-Z0-9\s\-_.]+$/.test(s)`: non-empty and all characters in the class. -/
def usernameCharsOk (s : String) : Bool :=
  (!s.isEmpty) && s.data.all usernameChar

/-- The uniqueness scan of `POST /register`:
`Array.from(peers.values()).find(p => p.username.toLowerCase() ===
trimmedUsername.toLowerCase() && p.peerId !== peerId &&
calculateDistance(p.location, location) < 1000)`. -/
def usernameTakenBy (core : DistCore) (trimmed pid : String) (rawLoc : RawLocation)
    (reg : Registry) : Option PeerData :=
  reg.find? (fun p =>
    (jsToLower p.username == jsToLower trimmed) && (p.peerId != pid) &&
    decide (calculateDistance ⊤ core (some p.location.toRaw) (some rawLoc)
      < ((1000 : ℚ) : WithTop ℚ)))

/-- The validation chain of `POST /register`, in source order, returning the
first applicable error.  JS truthiness is reflected exactly: an empty-string
`peerId`, `username` or `avatar` is falsy, so `!peerId`, `!username`,
`!avatar` reject it at the same check as an absent value. -/
def registerError (core : DistCore) (req : RegisterRequest) (reg : Registry) :
    Option RegError :=
  match req.peerId with
  | none => some .invalidPeerId
  | some pid =>
    if pid.length < 10 then some .invalidPeerId
    else match req.username with
      | none => some .usernameRequired
      | some u =>
        if u = "" then some .usernameRequired
        else
          let trimmed := jsTrim u
          if trimmed.length < MIN_USERNAME_LENGTH ∨ MAX_USERNAME_LENGTH < trimmed.length then
            some .usernameLengthInvalid
          else if ¬ usernameCharsOk trimmed then some .usernameCharsInvalid
          else match req.location with
            | none => some .locationRequired
            | some rawLoc =>
              match rawLoc.latitude, rawLoc.longitude with
              | some lat, some lon =>
                if 90 < |lat| ∨ 180 < |lon| then some .invalidCoordinates
                else match req.avatar with
                  | none => some .invalidAvatar
                  | some av =>
                    if av = "" ∨ 10 < av.length then some .invalidAvatar
                    else if (usernameTakenBy core trimmed pid rawLoc reg).isSome then
                      some .usernameTaken
                    else none
              | _, _ => some .locationRequired

/-- The merged `peerData` object built on successful registration: fresh
`lastSeen`, `joinedAt` and the counters carried over from an existing record
(`existingPeerData?.joinedAt || now`, `existingPeerData?.messageCount || 0`,
`existingPeerData?.connectionsCount || 0`), coordinates rounded to 6 decimal
places, `location.accuracy || 1000`. -/
def mergePeerData (now : ℤ) (ip ua pid trimmed av : String) (rawLoc : RawLocation)
    (existing : Option PeerData) : PeerData :=
  { peerId := pid
    username := trimmed
    avatar := av
    location :=
      { latitude := roundTo6 (rawLoc.latitude.getD 0)
        longitude := roundTo6 (rawLoc.longitude.getD 0)
        accuracy :=
          match rawLoc.accuracy with
          | some a => if a = 0 then 1000 else a
          | none => 1000 }
    lastSeen := now
    joinedAt :=
      match existing with
      | some e => if e.joinedAt = 0 then now else e.joinedAt
      | none => now
    messageCount :=
      match existing with
      | some e => e.messageCount
      | none => 0
    connectionsCount :=
      match existing with
      | some e => e.connectionsCount
      | none => 0
    ip := ip
    userAgent := ua
    status := "online" }

/-- The success payload of `POST /register` (`peersCount`, `serverTime`). -/
structure RegisterOk where
  peersCount : ℕ
  serverTime : ℤ
deriving DecidableEq, Repr, Inhabited

/-- `POST /register`: run the validation chain; on failure answer the error
with the registry untouched; on success store the merged record, run
`cleanupOldPeers()`, and answer the new peer count and server time.  The
`getD` defaults are never reached: `registerError … = none` implies every
field is present (see `registerError_none_shape`). -/
def register (core : DistCore) (now : ℤ) (ip ua : String) (req : RegisterRequest)
    (reg : Registry) : Except RegError RegisterOk × Registry :=
  match registerError core req reg with
  | some e => (.error e, reg)
  | none =>
    let pid := req.peerId.getD ""
    let trimmed := jsTrim (req.username.getD "")
    let av := req.avatar.getD ""
    let rawLoc := req.location.getD default
    let pd := mergePeerData now ip ua pid trimmed av rawLoc (regGet reg pid)
    let reg2 := cleanupOldPeers now (regSet reg pd)
    (.ok { peersCount := reg2.length, serverTime := now }, reg2)

/-- One element of the `nearbyPeers` array answered by `GET /peers`. -/
structure PeerEntry where
  peerId : String
  username : String
  avatar : String
  location : StoredLocation
  distance : ℤ
  lastSeen : ℤ
  isActive : Bool
  status : String
  joinedAt : ℤ
deriving DecidableEq, Repr, Inhabited

/-- The `GET /peers` sort comparator:
`if (a.isActive !== b.isActive) return b.isActive - a.isActive;
if (Math.abs(a.distance - b.distance) > 100) return a.distance - b.distance;
return b.joinedAt - a.joinedAt;` (booleans coerce to 0/1). -/
def compareEntries (a b : PeerEntry) : ℤ :=
  if a.isActive ≠ b.isActive then
    (if b.isActive then 1 else 0) - (if a.isActive then 1 else 0)
  else if 100 < |a.distance - b.distance| then a.distance - b.distance
  else b.joinedAt - a.joinedAt

/-- `nearbyPeers.sort(cmp)`: a stable sort placing `a` before `b` when
`cmp a b ≤ 0`. -/
def sortEntries (l : List PeerEntry) : List PeerEntry :=
  l.insertionSort (fun a b => compareEntries a b ≤ 0)

/-- `const searchRange = Math.min(parseInt(range) || DEFAULT_RANGE, 50000)`;
when the `range` query parameter is absent, destructuring defaults it to
`DEFAULT_RANGE`.  `NaN` and `0` are falsy, so both fall back to the default. -/
def effectiveRange (range : Option String) : ℤ :=
  match range with
  | none => min DEFAULT_RANGE 50000
  | some s =>
    min (match jsParseInt s with
         | some n => if n = 0 then DEFAULT_RANGE else n
         | none => DEFAULT_RANGE) 50000

/-- One pushed element of the `nearbyPeers` array: the peer's public fields
plus the derived `distance` (rounded), `isActive` (< 60 s) and liveness
`status` label (< 30 s).  The `untop' 0` default is unreachable: a distance
that passed `distance ≤ searchRange` is finite. -/
def toEntry (now : ℤ) (peer : PeerData) (distance : WithTop ℚ) : PeerEntry :=
  { peerId := peer.peerId
    username := peer.username
    avatar := peer.avatar
    location := peer.location
    distance := jsRound (distance.untop' 0)
    lastSeen := peer.lastSeen
    isActive := now - peer.lastSeen < 60000
    status := if now - peer.lastSeen < 30000 then "online" else "away"
    joinedAt := peer.joinedAt }

/-- The filtering loop of `GET /peers`: skip the requester itself, skip
records past `PEER_TIMEOUT`, and push an entry for every remaining record
within `searchRange` of the requester. -/
def nearbyPeers (core : DistCore) (now : ℤ) (pid : String) (requester : PeerData)
    (searchRange : ℤ) (reg : Registry) : List PeerEntry :=
  reg.filterMap (fun peer =>
    if peer.peerId = pid then none
    else if PEER_TIMEOUT < now - peer.lastSeen then none
    else
      let distance := calculateDistance ⊤ core
        (some requester.location.toRaw) (some peer.location.toRaw)
      if distance ≤ ((searchRange : ℚ) : WithTop ℚ) then
        some (toEntry now peer distance)
      else none)

/-- The error responses of `GET /peers`. -/
inductive DiscoverError where
  | missingPeerId
  | peerNotFound
deriving DecidableEq, Repr

/-- The success payload of `GET /peers`. -/
structure DiscoverResponse where
  peers : List PeerEntry
  total : ℕ
  searchRange : ℤ
  timestamp : ℤ
  totalUsers : ℕ
  activeUsers : ℕ
deriving DecidableEq, Repr, Inhabited

/-- `GET /peers`: require a truthy `peerId` that is registered, fix the
search range, collect and sort the nearby entries, truncate to
`MAX_PEERS_PER_USER` and report the untruncated count. -/
def discover (core : DistCore) (now : ℤ) (peerId : Option String)
    (range : Option String) (reg : Registry) :
    Except DiscoverError DiscoverResponse :=
  match peerId with
  | none => .error .missingPeerId
  | some pid =>
    if pid = "" then .error .missingPeerId
    else match regGet reg pid with
      | none => .error .peerNotFound
      | some requester =>
        let searchRange := effectiveRange range
        let nearby := nearbyPeers core now pid requester searchRange reg
        let sorted := sortEntries nearby
        .ok { peers := sorted.take MAX_PEERS_PER_USER
              total := nearby.length
              searchRange := searchRange
              timestamp := now
              totalUsers := reg.length
              activeUsers := (reg.filter (fun p => now - p.lastSeen < 60000)).length }

/-! ### Characterizations of the integer-arithmetic encodings -/

/-- `jsRound` computes `⌊q + 1/2⌋`, the `Math.round` of its argument. -/
theorem jsRound_eq (q : ℚ) : jsRound q = ⌊q + 1 / 2⌋ := by
  have hd0 : ((q.den : ℚ)) ≠ 0 := by
    exact_mod_cast q.den_nz
  have hnum : (q.num : ℚ) = q * (q.den : ℚ) := (div_eq_iff hd0).mp (Rat.num_div_den q)
  have hq : q + 1 / 2 = (((2 * q.num + (q.den : ℤ) : ℤ) : ℚ)) / (((2 * q.den : ℕ) : ℚ)) := by
    rw [eq_div_iff (by positivity)]
    push_cast
    rw [hnum]
    ring
  rw [hq, Rat.floor_intCast_div_natCast]
  unfold jsRound
  rw [Int.fdiv_eq_ediv _ (by positivity)]
  norm_num

/-- `roundTo6` computes `⌊q·10⁶ + 1/2⌋ / 10⁶`, the result of
`parseFloat(q.toFixed(6))`. -/
theorem roundTo6_eq (q : ℚ) : roundTo6 q = ((⌊q * 1000000 + 1 / 2⌋ : ℤ) : ℚ) / 1000000 := by
  have hd0 : ((q.den : ℚ)) ≠ 0 := by
    exact_mod_cast q.den_nz
  have hnum : (q.num : ℚ) = q * (q.den : ℚ) := (div_eq_iff hd0).mp (Rat.num_div_den q)
  have hq : q * 1000000 + 1 / 2 =
      (((2 * (q.num * 1000000) + (q.den : ℤ) : ℤ) : ℚ)) / (((2 * q.den : ℕ) : ℚ)) := by
    rw [eq_div_iff (by positivity)]
    push_cast
    rw [hnum]
    ring
  rw [hq, Rat.floor_intCast_div_natCast]
  unfold roundTo6
  rw [Rat.divInt_eq_div, Int.fdiv_eq_ediv _ (by positivity)]
  norm_num

/-! ### Concrete fixtures used by witnesses and counterexamples -/

/-- A stored location at a given latitude (fixtures vary only the latitude). -/
def locAt (lat : ℚ) : StoredLocation :=
  { latitude := lat, longitude := 0, accuracy := 10 }

/-- A registered peer record fixture. -/
def mkP (pid un : String) (lat : ℚ) (lastSeen joinedAt : ℤ) : PeerData :=
  { peerId := pid, username := un, avatar := "x", location := locAt lat,
    lastSeen := lastSeen, joinedAt := joinedAt, messageCount := 0,
    connectionsCount := 0, ip := "ip", userAgent := "ua", status := "online" }

/-- A distance core whose value depends only on the target latitude:
latitude 1 ↦ 100 m, latitude 2 ↦ 150 m, latitude 3 ↦ 120 m, otherwise 0 m. -/
def coreByLat : DistCore := fun _ _ lat2 _ =>
  ((if lat2 = 1 then 100 else if lat2 = 2 then 150 else if lat2 = 3 then 120 else 0 : ℚ) :
    WithTop ℚ)

/-- The query time of the ranking fixture. -/
def nowR : ℤ := 1000000

/-- The ranking fixture registry: a requester plus three peers at 100 m
(active, joined latest), 150 m (active, joined earlier) and 120 m (inactive,
last seen 100 s ago), inserted in scrambled order. -/
def regRank : Registry :=
  [ mkP ("peer-c-120m") ("carol") 3 (nowR - 100000) 300,
    mkP ("peer-b-150m") ("bob") 2 (nowR - 1000) 400,
    mkP ("requester-0") ("ruth") 0 (nowR - 1000) 100,
    mkP ("peer-a-100m") ("alice") 1 (nowR - 1000) 500 ]

/-! ### C1: discovery ranking comparator -/

/-- C1: the discovery comparator orders active entries before inactive ones;
among entries with equal `isActive` it puts the smaller distance first when
the gap exceeds 100 m and otherwise the larger (newer) `joinedAt` first; and
for three peers at 100 m and 150 m (both active, the 100 m one having joined
later) and 120 m (inactive), discovery returns them in the order
[100 m, 150 m, 120 m]. -/
theorem discovery_comparator_and_ranking :
    (∀ a b : PeerEntry,
      compareEntries a b < 0 ↔
        ((a.isActive = true ∧ b.isActive = false) ∨
         (a.isActive = b.isActive ∧ 100 < |a.distance - b.distance| ∧
           a.distance < b.distance) ∨
         (a.isActive = b.isActive ∧ |a.distance - b.distance| ≤ 100 ∧
           b.joinedAt < a.joinedAt)))
    ∧ (discover coreByLat nowR (some ("requester-0")) none regRank).map
        (fun r => r.peers.map (fun e => (e.peerId, e.distance, e.isActive))) =
      .ok [(("peer-a-100m" : String), (100 : ℤ), true),
           (("peer-b-150m" : String), (150 : ℤ), true),
           (("peer-c-120m" : String), (120 : ℤ), false)] := by
  constructor
  · intro a b
    unfold compareEntries
    by_cases hab : a.isActive = b.isActive
    · rw [if_neg (by simp [hab])]
      by_cases hd : 100 < |a.distance - b.distance|
      · rw [if_pos hd]
        constructor
        · intro h
          exact Or.inr (Or.inl ⟨hab, hd, by omega⟩)
        · rintro (⟨h1, h2⟩ | ⟨h3, h4, hlt⟩ | ⟨h5, hle, h6⟩)
          · rw [h1, h2] at hab
            exact absurd hab (by simp)
          · omega
          · exact absurd hd (not_lt.mpr hle)
      · rw [if_neg hd]
        push_neg at hd
        constructor
        · intro h
          exact Or.inr (Or.inr ⟨hab, hd, by omega⟩)
        · rintro (⟨h1, h2⟩ | ⟨h3, hgt, h4⟩ | ⟨h5, h6, hj⟩)
          · rw [h1, h2] at hab
            exact absurd hab (by simp)
          · exact absurd hgt (not_lt.mpr hd)
          · omega
    · rw [if_pos hab]
      cases ha : a.isActive <;> cases hb : b.isActive
      · exact absurd (by rw [ha, hb]) hab
      · simp [ha, hb]
      · simp [ha, hb]
      · exact absurd (by rw [ha, hb]) hab
  · rfl

/-! ### C10: the comparator is not transitive -/

/-- A result-entry fixture with the given distance and join time. -/
def entryAt (d j : ℤ) : PeerEntry :=
  { peerId := "p", username := "u", avatar := "a", location := locAt 0,
    distance := d, lastSeen := 0, isActive := true, status := "online",
    joinedAt := j }

/-- C10: the comparator admits a cycle on same-`isActive` entries: with
distances 0 m, 90 m, 180 m and strictly increasing join times, each adjacent
pair falls under the 100 m tie rule (newer first) while the outer pair is
decided by distance, so b precedes a, c precedes b, and yet a precedes c. -/
theorem comparator_cycle :
    (entryAt 0 1).isActive = (entryAt 90 2).isActive ∧
    (entryAt 90 2).isActive = (entryAt 180 3).isActive ∧
    compareEntries (entryAt 90 2) (entryAt 0 1) < 0 ∧
    compareEntries (entryAt 180 3) (entryAt 90 2) < 0 ∧
    compareEntries (entryAt 0 1) (entryAt 180 3) < 0 := by
  refine ⟨rfl, rfl, ?_, ?_, ?_⟩ <;> decide

/-! ### Discovery pipeline characterization -/

/-- Membership in the `nearbyPeers` array: exactly the non-requester,
non-stale records within range contribute, each as its derived entry. -/
theorem mem_nearbyPeers_iff {core : DistCore} {now : ℤ} {pid : String}
    {requester : PeerData} {sr : ℤ} {reg : Registry} {e : PeerEntry} :
    e ∈ nearbyPeers core now pid requester sr reg ↔
      ∃ peer, peer ∈ reg ∧ peer.peerId ≠ pid ∧
        ¬ (PEER_TIMEOUT < now - peer.lastSeen) ∧
        calculateDistance ⊤ core (some requester.location.toRaw)
          (some peer.location.toRaw) ≤ ((sr : ℚ) : WithTop ℚ) ∧
        e = toEntry now peer (calculateDistance ⊤ core
          (some requester.location.toRaw) (some peer.location.toRaw)) := by
  unfold nearbyPeers
  rw [List.mem_filterMap]
  constructor
  · rintro ⟨peer, hp, hf⟩
    dsimp only at hf
    split_ifs at hf with h1 h2 h3
    · injection hf with h
      exact ⟨peer, hp, h1, h2, h3, h.symm⟩
  · rintro ⟨peer, hp, h1, h2, h3, rfl⟩
    refine ⟨peer, hp, ?_⟩
    dsimp only
    rw [if_neg h1, if_neg h2, if_pos h3]

/-- Shape of a successful `GET /peers` response: the requester must be
registered, the peer list is the sorted nearby list truncated to
`MAX_PEERS_PER_USER`, `total` is the untruncated length, and `searchRange`
is the effective range. -/
theorem discover_ok_spec {core : DistCore} {now : ℤ} {pid : String}
    {range : Option String} {reg : Registry} {resp : DiscoverResponse}
    (h : discover core now (some pid) range reg = .ok resp) :
    pid ≠ "" ∧ ∃ requester, regGet reg pid = some requester ∧
      resp.peers = (sortEntries (nearbyPeers core now pid requester
        (effectiveRange range) reg)).take MAX_PEERS_PER_USER ∧
      resp.total = (nearbyPeers core now pid requester (effectiveRange range) reg).length ∧
      resp.searchRange = effectiveRange range := by
  unfold discover at h
  dsimp only at h
  by_cases hpid : pid = ""
  · rw [if_pos hpid] at h
    exact absurd h (by simp)
  · rw [if_neg hpid] at h
    rcases hreq : regGet reg pid with _ | requester
    · rw [hreq] at h
      exact absurd h (by simp)
    · rw [hreq] at h
      injection h with h2
      exact ⟨hpid, requester, rfl, by rw [← h2], by rw [← h2], by rw [← h2]⟩

/-! ### C4: eviction removes exactly the stale records -/

/-- C4: after `cleanupOldPeers` runs at time `now`, a record is in the
registry iff it was there before and is at most `PEER_TIMEOUT` (8 min) old
(removal is total, not a soft delete); and a record older than
`PEER_TIMEOUT` never contributes an entry to discovery results even before
a sweep runs. -/
theorem eviction_exactly_stale_and_discovery_skips_stale :
    (∀ (now : ℤ) (reg : Registry) (p : PeerData),
      p ∈ cleanupOldPeers now reg ↔ (p ∈ reg ∧ now - p.lastSeen ≤ PEER_TIMEOUT))
    ∧ (∀ (core : DistCore) (now : ℤ) (pid : String) (range : Option String)
        (reg : Registry) (resp : DiscoverResponse),
        discover core now (some pid) range reg = .ok resp →
        ∀ e ∈ resp.peers, now - e.lastSeen ≤ PEER_TIMEOUT) := by
  constructor
  · intro now reg p
    simp [cleanupOldPeers, List.mem_filter, not_lt]
  · intro core now pid range reg resp h e he
    obtain ⟨-, requester, -, hp, -, -⟩ := discover_ok_spec h
    rw [hp] at he
    have h1 : e ∈ sortEntries (nearbyPeers core now pid requester
        (effectiveRange range) reg) :=
      List.take_subset _ _ he
    rw [sortEntries, List.mem_insertionSort] at h1
    obtain ⟨peer, -, -, h2, -, he2⟩ := mem_nearbyPeers_iff.mp h1
    rw [he2]
    simp only [toEntry]
    omega

/-- The concrete response of the ranking fixture discovery query. -/
def respRank : DiscoverResponse :=
  ((discover coreByLat nowR (some ("requester-0")) none regRank).toOption).getD default

/-- The first entry of the ranking fixture response. -/
def entryRank0 : PeerEntry := respRank.peers.getD 0 default

/-- A stale fixture record (lastSeen 0). -/
def staleP : PeerData := mkP ("peer-stale-0001") ("stan") 0 0 0

/-- Witness for C4 at concrete inputs: a record seen 8 min 1 ms ago is
swept, and the fixture discovery query only returns fresh entries. -/
theorem eviction_exactly_stale_and_discovery_skips_stale_witness :
    (staleP ∈ cleanupOldPeers 480001 [staleP] ↔
      (staleP ∈ [staleP] ∧ (480001 : ℤ) - staleP.lastSeen ≤ PEER_TIMEOUT))
    ∧ nowR - entryRank0.lastSeen ≤ PEER_TIMEOUT := by
  constructor
  · exact eviction_exactly_stale_and_discovery_skips_stale.1 480001 [staleP] staleP
  · exact eviction_exactly_stale_and_discovery_skips_stale.2 coreByLat nowR
      ("requester-0") none regRank respRank (by rfl) entryRank0 (by decide)

/-! ### C6: result truncation and total count -/

/-- C6: every successful discovery response holds at most
`MAX_PEERS_PER_USER` (100) entries, its peer list is a prefix of the full
sorted match list, its `total` is the number of matches before truncation,
and whenever there are 150 matches exactly 100 entries are returned with
`total = 150`. -/
theorem discovery_truncation_and_total :
    ∀ (core : DistCore) (now : ℤ) (pid : String) (range : Option String)
      (reg : Registry) (resp : DiscoverResponse),
      discover core now (some pid) range reg = .ok resp →
      resp.peers.length ≤ MAX_PEERS_PER_USER ∧
      (∃ requester, regGet reg pid = some requester ∧
        resp.peers <+: sortEntries (nearbyPeers core now pid requester
          (effectiveRange range) reg) ∧
        resp.total = (nearbyPeers core now pid requester (effectiveRange range) reg).length) ∧
      (resp.total = 150 → resp.peers.length = 100) := by
  intro core now pid range reg resp h
  obtain ⟨-, requester, hreq, hp, ht, -⟩ := discover_ok_spec h
  have hsort : (sortEntries (nearbyPeers core now pid requester
      (effectiveRange range) reg)).length =
      (nearbyPeers core now pid requester (effectiveRange range) reg).length :=
    List.Perm.length_eq (List.perm_insertionSort _ _)
  have hlen : resp.peers.length = min MAX_PEERS_PER_USER
      (nearbyPeers core now pid requester (effectiveRange range) reg).length := by
    rw [hp, List.length_take, hsort]
  refine ⟨?_, ⟨requester, hreq, ?_, ht⟩, ?_⟩
  · rw [hlen]
    exact min_le_left _ _
  · rw [hp]
    exact List.take_prefix _ _
  · intro h150
    have h150' : (nearbyPeers core now pid requester (effectiveRange range) reg).length = 150 := by
      rw [← ht]
      exact h150
    rw [hlen, h150']
    rfl

/-- Witness for C6 at the ranking fixture query. -/
theorem discovery_truncation_and_total_witness :
    respRank.peers.length ≤ MAX_PEERS_PER_USER ∧
    (∃ requester, regGet regRank ("requester-0") = some requester ∧
      respRank.peers <+: sortEntries (nearbyPeers coreByLat nowR ("requester-0")
        requester (effectiveRange none) regRank) ∧
      respRank.total = (nearbyPeers coreByLat nowR ("requester-0") requester
        (effectiveRange none) regRank).length) ∧
    (respRank.total = 150 → respRank.peers.length = 100) :=
  discovery_truncation_and_total coreByLat nowR ("requester-0") none regRank respRank (by rfl)

/-! ### C5: effective search range -/

/-- C5 counterexample: `range="0"` parses as the number 0, which is at most
50000, yet the effective search range is the default 5000, not 0 — because
`parseInt(range) || DEFAULT_RANGE` treats the falsy 0 like `NaN`.  This
refutes the claim that any parsed value ≤ 50000 is used as requested. -/
theorem effective_range_zero_counterexample :
    jsParseInt ("0") = some 0 ∧ (0 : ℤ) ≤ 50000 ∧
    effectiveRange (some ("0")) = 5000 ∧ (5000 : ℤ) ≠ 0 := by
  refine ⟨by decide, by decide, by decide, by decide⟩

/-- C5 amended: the effective search range is the requested value when it
parses to a nonzero number at most 50000, is clamped to 50000 above that,
and is the default 5000 when the parameter is missing, non-numeric, or
parses to 0; and no range string makes discovery fail for a registered,
non-empty requester id. -/
theorem effective_range_spec :
    (∀ (s : String) (n : ℤ), jsParseInt s = some n → n ≠ 0 → n ≤ 50000 →
      effectiveRange (some s) = n) ∧
    (∀ (s : String) (n : ℤ), jsParseInt s = some n → 50000 < n →
      effectiveRange (some s) = 50000) ∧
    (∀ s : String, jsParseInt s = none → effectiveRange (some s) = DEFAULT_RANGE) ∧
    (∀ s : String, jsParseInt s = some 0 → effectiveRange (some s) = DEFAULT_RANGE) ∧
    effectiveRange none = DEFAULT_RANGE ∧
    (∀ (core : DistCore) (now : ℤ) (pid : String) (range : Option String)
      (reg : Registry) (requester : PeerData),
      regGet reg pid = some requester → pid ≠ "" →
      ∃ resp, discover core now (some pid) range reg = .ok resp ∧
        resp.searchRange = effectiveRange range) := by
  refine ⟨?_, ?_, ?_, ?_, ?_, ?_⟩
  · intro s n h hn hle
    simp only [effectiveRange, h, if_neg hn]
    omega
  · intro s n h hn
    simp only [effectiveRange, h, if_neg (by omega : ¬ n = 0)]
    omega
  · intro s h
    simp only [effectiveRange, h]
    rfl
  · intro s h
    simp only [effectiveRange, h, if_pos rfl]
    rfl
  · rfl
  · intro core now pid range reg requester hreq hpid
    unfold discover
    dsimp only
    rw [if_neg hpid, hreq]
    exact ⟨_, rfl, rfl⟩

/-- Witness for C5 (amended) at concrete range strings. -/
theorem effective_range_spec_witness :
    effectiveRange (some ("7000")) = 7000 ∧
    effectiveRange (some ("999999")) = 50000 ∧
    effectiveRange (some ("abc")) = DEFAULT_RANGE ∧
    effectiveRange (some ("0")) = DEFAULT_RANGE ∧
    ∃ resp, discover coreByLat nowR (some ("requester-0")) (some ("999999"))
        regRank = .ok resp ∧
      resp.searchRange = effectiveRange (some ("999999")) :=
  ⟨effective_range_spec.1 ("7000") 7000 (by decide) (by decide) (by decide),
   effective_range_spec.2.1 ("999999") 999999 (by decide) (by decide),
   effective_range_spec.2.2.1 ("abc") (by decide),
   effective_range_spec.2.2.2.1 ("0") (by decide),
   effective_range_spec.2.2.2.2.2 coreByLat nowR ("requester-0") (some ("999999"))
     regRank (mkP ("requester-0") ("ruth") 0 (nowR - 1000) 100) (by rfl) (by decide)⟩

/-! ### C7: invalid coordinates give Infinity, which the range filter excludes -/

/-- C7: `calculateDistance` answers Infinity (⊤) whenever an argument is
absent, has a non-numeric latitude or longitude, or has `|latitude| > 90` or
`|longitude| > 180`; Infinity never satisfies the discovery filter
`distance ≤ searchRange`, so every discovery entry stems from a peer whose
distance is finite.  (Totality holds by construction: the function is
defined on all inputs and returns the sentinel rather than failing.) -/
theorem calculateDistance_invalid_infinity :
    (∀ (core : DistCore) (l2 : Option RawLocation),
      calculateDistance ⊤ core none l2 = ⊤) ∧
    (∀ (core : DistCore) (l1 : Option RawLocation),
      calculateDistance ⊤ core l1 none = ⊤) ∧
    (∀ (core : DistCore) (r1 r2 : RawLocation),
      (r1.latitude = none ∨ r1.longitude = none ∨
       r2.latitude = none ∨ r2.longitude = none) →
      calculateDistance ⊤ core (some r1) (some r2) = ⊤) ∧
    (∀ (core : DistCore) (r1 r2 : RawLocation) (lat1 lon1 lat2 lon2 : ℚ),
      r1.latitude = some lat1 → r1.longitude = some lon1 →
      r2.latitude = some lat2 → r2.longitude = some lon2 →
      (90 < |lat1| ∨ 90 < |lat2| ∨ 180 < |lon1| ∨ 180 < |lon2|) →
      calculateDistance ⊤ core (some r1) (some r2) = ⊤) ∧
    (∀ sr : ℤ, ¬ ((⊤ : WithTop ℚ) ≤ ((sr : ℚ) : WithTop ℚ))) ∧
    (∀ (core : DistCore) (now : ℤ) (pid : String) (requester : PeerData)
      (sr : ℤ) (reg : Registry) (e : PeerEntry),
      e ∈ nearbyPeers core now pid requester sr reg →
      ∃ peer, peer ∈ reg ∧
        e = toEntry now peer (calculateDistance ⊤ core
          (some requester.location.toRaw) (some peer.location.toRaw)) ∧
        calculateDistance ⊤ core (some requester.location.toRaw)
          (some peer.location.toRaw) ≠ ⊤) := by
  refine ⟨?_, ?_, ?_, ?_, ?_, ?_⟩
  · intro core l2
    rcases l2 with _ | r2 <;> rfl
  · intro core l1
    rcases l1 with _ | r1 <;> rfl
  · intro core r1 r2 h
    obtain ⟨lat1, lon1, acc1⟩ := r1
    obtain ⟨lat2, lon2, acc2⟩ := r2
    rcases lat1 with _ | a <;> rcases lon1 with _ | b <;>
      rcases lat2 with _ | c <;> rcases lon2 with _ | d <;>
      first
        | rfl
        | simp at h
  · intro core r1 r2 lat1 lon1 lat2 lon2 h1 h2 h3 h4 hout
    obtain ⟨l1a, l1b, l1c⟩ := r1
    obtain ⟨l2a, l2b, l2c⟩ := r2
    dsimp only at h1 h2 h3 h4
    subst h1
    subst h2
    subst h3
    subst h4
    simp only [calculateDistance]
    rw [if_pos hout]
  · intro sr h
    rw [top_le_iff] at h
    exact WithTop.coe_ne_top h
  · intro core now pid requester sr reg e he
    obtain ⟨peer, hp, -, -, hle, hee⟩ := mem_nearbyPeers_iff.mp he
    refine ⟨peer, hp, hee, ?_⟩
    intro htop
    rw [htop, top_le_iff] at hle
    exact WithTop.coe_ne_top hle

/-- A raw location with a non-numeric latitude. -/
def rawNoLat : RawLocation := { latitude := none, longitude := some 0, accuracy := none }

/-- A raw location with latitude 91 (out of range). -/
def rawLat91 : RawLocation := { latitude := some 91, longitude := some 0, accuracy := none }

/-- Witness for C7 at concrete invalid inputs and a concrete discovery entry. -/
theorem calculateDistance_invalid_infinity_witness :
    calculateDistance ⊤ coreByLat (some rawNoLat) (some (locAt 0).toRaw) = ⊤ ∧
    calculateDistance ⊤ coreByLat (some rawLat91) (some (locAt 0).toRaw) = ⊤ ∧
    ∃ peer, peer ∈ regRank ∧
      entryRank0 = toEntry nowR peer (calculateDistance ⊤ coreByLat
        (some ((mkP ("requester-0") ("ruth") 0 (nowR - 1000) 100).location.toRaw))
        (some peer.location.toRaw)) ∧
      calculateDistance ⊤ coreByLat
        (some ((mkP ("requester-0") ("ruth") 0 (nowR - 1000) 100).location.toRaw))
        (some peer.location.toRaw) ≠ ⊤ :=
  ⟨calculateDistance_invalid_infinity.2.2.1 coreByLat rawNoLat ((locAt 0).toRaw)
     (Or.inl (by decide)),
   calculateDistance_invalid_infinity.2.2.2.1 coreByLat rawLat91 ((locAt 0).toRaw)
     91 0 0 0 (by decide) (by decide) (by decide) (by decide) (Or.inl (by decide)),
   calculateDistance_invalid_infinity.2.2.2.2.2 coreByLat nowR ("requester-0")
     (mkP ("requester-0") ("ruth") 0 (nowR - 1000) 100) 5000 regRank entryRank0
     (by decide)⟩

/-! ### Registry update lemmas -/

/-- `find?.isSome` agrees with `any` for the same predicate. -/
theorem find?_isSome_eq_any (p : α → Bool) (l : List α) :
    (l.find? p).isSome = l.any p := by
  induction l with
  | nil => rfl
  | cons x xs ih =>
    by_cases h : p x <;> simp [List.find?_cons, h, ih]

/-- Updating in place puts the new record at the old record's key. -/
theorem find?_update (p : PeerData) :
    ∀ l : Registry, l.any (fun r => r.peerId == p.peerId) = true →
      (l.map (fun q => if q.peerId == p.peerId then p else q)).find?
        (fun r => r.peerId == p.peerId) = some p
  | [], h => by simp at h
  | r :: rs, h => by
    rw [List.map_cons]
    by_cases hr : (r.peerId == p.peerId) = true
    · rw [if_pos hr]
      simp only [List.find?_cons, beq_self_eq_true]
    · have hr' : (r.peerId == p.peerId) = false := by simpa using hr
      rw [if_neg hr]
      simp only [List.find?_cons, hr']
      apply find?_update p rs
      simpa [List.any_cons, hr'] using h

/-- Appending a record with an absent key makes it findable. -/
theorem find?_append_self (p : PeerData) :
    ∀ l : Registry, l.any (fun r => r.peerId == p.peerId) = false →
      (l ++ [p]).find? (fun r => r.peerId == p.peerId) = some p
  | [], _ => by simp [List.find?]
  | r :: rs, h => by
    rw [List.any_cons, Bool.or_eq_false_iff] at h
    rw [List.cons_append]
    simp only [List.find?_cons, h.1]
    exact find?_append_self p rs h.2

/-- `peers.set` followed by `peers.get` of the same key yields the record. -/
theorem regGet_regSet (reg : Registry) (p : PeerData) :
    regGet (regSet reg p) p.peerId = some p := by
  rw [regSet, regGet]
  split_ifs with hany
  · exact find?_update p reg hany
  · exact find?_append_self p reg (by simpa using hany)

/-- After `peers.set`, every record at the new record's key is that record. -/
theorem regSet_uniform {reg : Registry} {p q : PeerData}
    (hq : q ∈ regSet reg p) (h : q.peerId = p.peerId) : q = p := by
  rw [regSet] at hq
  split_ifs at hq with hany
  · obtain ⟨r, hr, hrq⟩ := List.mem_map.mp hq
    by_cases hrp : (r.peerId == p.peerId) = true
    · rw [if_pos hrp] at hrq
      exact hrq.symm
    · rw [if_neg hrp] at hrq
      rw [← hrq] at h
      exact absurd (by simpa using h) hrp
  · rcases List.mem_append.mp hq with hmem | hmem
    · exact absurd (List.any_eq_true.mpr ⟨q, hmem, by simpa using h⟩) hany
    · simpa using hmem

/-- Filtering preserves lookup of a key whose records are all `p` and whose
record passes the filter. -/
theorem find?_filter_of_uniform (pid : String) (p : PeerData) (f : PeerData → Bool)
    (hf : f p = true) :
    ∀ l : Registry, l.find? (fun r => r.peerId == pid) = some p →
      (∀ q ∈ l, q.peerId = pid → q = p) →
      (l.filter f).find? (fun r => r.peerId == pid) = some p
  | [], h, _ => by simp at h
  | r :: rs, h, hu => by
    by_cases hr : (r.peerId == pid) = true
    · have hrp : r = p := hu r (by simp) (by simpa using hr)
      subst hrp
      rw [List.filter_cons, if_pos hf]
      simp only [List.find?_cons, hr]
    · have hr' : (r.peerId == pid) = false := by simpa using hr
      simp only [List.find?_cons, hr'] at h
      rw [List.filter_cons]
      have htail := find?_filter_of_uniform pid p f hf rs h
        (fun q hq hq2 => hu q (by simp [hq]) hq2)
      split_ifs with hfr
      · simp only [List.find?_cons, hr']
        exact htail
      · exact htail

/-- Unfolding `register` on a failed validation: the error is answered and
the registry is untouched. -/
theorem register_of_error {core : DistCore} {now : ℤ} {ip ua : String}
    {req : RegisterRequest} {reg : Registry} {e : RegError}
    (h : registerError core req reg = some e) :
    register core now ip ua req reg = (.error e, reg) := by
  unfold register
  rw [h]

/-- Unfolding `register` on successful validation: the merged record is
stored and the registry is swept. -/
theorem register_of_ok {core : DistCore} {now : ℤ} {ip ua : String}
    {req : RegisterRequest} {reg : Registry}
    (h : registerError core req reg = none) :
    register core now ip ua req reg =
      (.ok { peersCount := (cleanupOldPeers now (regSet reg
                (mergePeerData now ip ua (req.peerId.getD "")
                  (jsTrim (req.username.getD "")) (req.avatar.getD "")
                  (req.location.getD default)
                  (regGet reg (req.peerId.getD ""))))).length,
             serverTime := now },
       cleanupOldPeers now (regSet reg
         (mergePeerData now ip ua (req.peerId.getD "")
           (jsTrim (req.username.getD "")) (req.avatar.getD "")
           (req.location.getD default) (regGet reg (req.peerId.getD ""))))) := by
  unfold register
  rw [h]

/-- A freshly set record survives the sweep and is found at its key. -/
theorem regGet_cleanup_regSet (now : ℤ) (reg : Registry) (p : PeerData)
    (hfresh : ¬ (PEER_TIMEOUT < now - p.lastSeen)) :
    regGet (cleanupOldPeers now (regSet reg p)) p.peerId = some p := by
  rw [cleanupOldPeers, regGet]
  exact find?_filter_of_uniform p.peerId p _ (by simp [hfresh]) (regSet reg p)
    (regGet_regSet reg p) (fun q hq hqp => regSet_uniform hq hqp)

/-! ### C3: re-registration frame effect -/

/-- C3: a successful re-registration of an existing peerId (with a nonzero
stored `joinedAt`, as every record written at a positive clock has) keeps
`joinedAt`, `messageCount` and `connectionsCount` unchanged, sets `lastSeen`
to the current time, and replaces username, avatar and location with the
newly supplied values (coordinates rounded to 6 decimal places, accuracy
defaulted to 1000 when absent or 0). -/
theorem register_rereg_frame (core : DistCore) (now : ℤ) (ip ua : String)
    (req : RegisterRequest) (reg : Registry) (pid u av : String)
    (rawLoc : RawLocation) (old : PeerData)
    (hpid : req.peerId = some pid)
    (huser : req.username = some u)
    (hav : req.avatar = some av)
    (hloc : req.location = some rawLoc)
    (hold : regGet reg pid = some old)
    (hjoin : old.joinedAt ≠ 0)
    (hsucc : registerError core req reg = none) :
    ∃ nw, regGet (register core now ip ua req reg).2 pid = some nw ∧
      nw.joinedAt = old.joinedAt ∧
      nw.messageCount = old.messageCount ∧
      nw.connectionsCount = old.connectionsCount ∧
      nw.lastSeen = now ∧
      nw.avatar = av ∧
      nw.username = jsTrim u ∧
      nw.location = { latitude := roundTo6 (rawLoc.latitude.getD 0),
                      longitude := roundTo6 (rawLoc.longitude.getD 0),
                      accuracy := match rawLoc.accuracy with
                                  | some a => if a = 0 then 1000 else a
                                  | none => 1000 } := by
  rw [register_of_ok hsucc]
  dsimp only
  rw [hpid, huser, hav, hloc]
  simp only [Option.getD_some]
  rw [hold]
  refine ⟨mergePeerData now ip ua pid (jsTrim u) av rawLoc (some old), ?_, ?_, rfl, rfl, rfl, rfl, rfl, rfl⟩
  · have hkey : (mergePeerData now ip ua pid (jsTrim u) av rawLoc (some old)).peerId = pid := rfl
    rw [← hkey]
    exact regGet_cleanup_regSet now reg _ (by show ¬ (PEER_TIMEOUT < now - now); simp [PEER_TIMEOUT])
  · simp [mergePeerData, hjoin]

/-- A stored record for the C3 witness. -/
def aliceP : PeerData :=
  { peerId := "peer-alice-0001", username := "Alice", avatar := "A",
    location := { latitude := 40, longitude := -73, accuracy := 1000 },
    lastSeen := 1000, joinedAt := 1000, messageCount := 5,
    connectionsCount := 2, ip := "ip", userAgent := "ua", status := "online" }

/-- A re-registration request for the same peerId with new avatar and
location. -/
def reqAliceAgain : RegisterRequest :=
  { peerId := some ("peer-alice-0001"), username := some ("Alice"),
    avatar := some ("B"),
    location := some { latitude := some 41, longitude := some (-72), accuracy := some 5 } }

/-- Witness for C3: re-registering the fixture record at time 5000 keeps
`joinedAt = 1000` and the counters, and refreshes the mutable fields. -/
theorem register_rereg_frame_witness :
    ∃ nw, regGet (register coreByLat 5000 ("ip2") ("ua2") reqAliceAgain [aliceP]).2
        ("peer-alice-0001") = some nw ∧
      nw.joinedAt = aliceP.joinedAt ∧
      nw.messageCount = aliceP.messageCount ∧
      nw.connectionsCount = aliceP.connectionsCount ∧
      nw.lastSeen = 5000 ∧
      nw.avatar = "B" ∧
      nw.username = jsTrim ("Alice") ∧
      nw.location = { latitude := roundTo6 (((some 41 : Option ℚ)).getD 0),
                      longitude := roundTo6 (((some (-72) : Option ℚ)).getD 0),
                      accuracy := match (some 5 : Option ℚ) with
                                  | some a => if a = 0 then 1000 else a
                                  | none => 1000 } :=
  register_rereg_frame coreByLat 5000 ("ip2") ("ua2") reqAliceAgain [aliceP]
    ("peer-alice-0001") ("Alice") ("B")
    { latitude := some 41, longitude := some (-72), accuracy := some 5 } aliceP
    rfl rfl rfl rfl (by decide) (by decide) (by decide)

/-- When checks 1–6 of the validation chain pass, `registerError` reduces to
the uniqueness check alone. -/
theorem registerError_valid_checks (core : DistCore) (req : RegisterRequest)
    (reg : Registry) (pid u av : String) (rawLoc : RawLocation) (lat lon : ℚ)
    (hpid : req.peerId = some pid) (h1 : ¬ (pid.length < 10))
    (huser : req.username = some u) (h2 : u ≠ "")
    (h3 : ¬ ((jsTrim u).length < MIN_USERNAME_LENGTH ∨
             MAX_USERNAME_LENGTH < (jsTrim u).length))
    (h4 : usernameCharsOk (jsTrim u))
    (hloc : req.location = some rawLoc) (hlat : rawLoc.latitude = some lat)
    (hlon : rawLoc.longitude = some lon)
    (h5 : ¬ (90 < |lat| ∨ 180 < |lon|))
    (hav : req.avatar = some av) (h6 : ¬ (av = "" ∨ 10 < av.length)) :
    registerError core req reg =
      if (usernameTakenBy core (jsTrim u) pid rawLoc reg).isSome then
        some .usernameTaken
      else none := by
  simp [registerError, hpid, huser, hloc, hlat, hlon, hav, h1, h2, h3, h4, h5, h6]

/-! ### C2: case-insensitive username uniqueness within 1000 m -/

/-- C2: for an otherwise valid registration request by `pid`: if some other
stored peer `A` has the same case-insensitive username (after trimming) and
lies strictly within 1000 m of the supplied location, registration fails
with `usernameTaken` and the registry is unchanged; if every such peer is
1000 m or farther, registration succeeds. -/
theorem register_username_uniqueness (core : DistCore) (now : ℤ) (ip ua : String)
    (req : RegisterRequest) (reg : Registry) (pid u av : String)
    (rawLoc : RawLocation) (lat lon : ℚ)
    (hpid : req.peerId = some pid) (h1 : ¬ (pid.length < 10))
    (huser : req.username = some u) (h2 : u ≠ "")
    (h3 : ¬ ((jsTrim u).length < MIN_USERNAME_LENGTH ∨
             MAX_USERNAME_LENGTH < (jsTrim u).length))
    (h4 : usernameCharsOk (jsTrim u))
    (hloc : req.location = some rawLoc) (hlat : rawLoc.latitude = some lat)
    (hlon : rawLoc.longitude = some lon)
    (h5 : ¬ (90 < |lat| ∨ 180 < |lon|))
    (hav : req.avatar = some av) (h6 : ¬ (av = "" ∨ 10 < av.length)) :
    (∀ A, A ∈ reg → jsToLower A.username = jsToLower (jsTrim u) → A.peerId ≠ pid →
      calculateDistance ⊤ core (some A.location.toRaw) (some rawLoc) <
        ((1000 : ℚ) : WithTop ℚ) →
      register core now ip ua req reg = (.error .usernameTaken, reg))
    ∧ ((∀ A, A ∈ reg → jsToLower A.username = jsToLower (jsTrim u) → A.peerId ≠ pid →
        ¬ (calculateDistance ⊤ core (some A.location.toRaw) (some rawLoc) <
          ((1000 : ℚ) : WithTop ℚ))) →
      ∃ ok reg2, register core now ip ua req reg = (.ok ok, reg2)) := by
  have hre := registerError_valid_checks core req reg pid u av rawLoc lat lon
    hpid h1 huser h2 h3 h4 hloc hlat hlon h5 hav h6
  constructor
  · intro A hA hname hdiff hdist
    have htaken : (usernameTakenBy core (jsTrim u) pid rawLoc reg).isSome = true := by
      rw [usernameTakenBy, find?_isSome_eq_any]
      refine List.any_eq_true.mpr ⟨A, hA, ?_⟩
      simp only [Bool.and_eq_true, beq_iff_eq, bne_iff_ne, decide_eq_true_eq]
      exact ⟨⟨hname, hdiff⟩, hdist⟩
    rw [if_pos htaken] at hre
    exact register_of_error hre
  · intro h
    have hnone : usernameTakenBy core (jsTrim u) pid rawLoc reg = none := by
      rw [usernameTakenBy]
      refine List.find?_eq_none.mpr ?_
      intro A hA
      simp only [Bool.and_eq_true, beq_iff_eq, bne_iff_ne, decide_eq_true_eq, not_and]
      intro hand
      exact h A hA hand.1 hand.2
    rw [hnone] at hre
    simp only [Option.isSome_none, Bool.false_eq_true, if_false] at hre
    exact ⟨_, _, register_of_ok hre⟩

/-- A distance core for the uniqueness witness: 11 m between equal source
and target latitudes, 111 km otherwise. -/
def coreGap : DistCore := fun lat1 _ lat2 _ =>
  if lat1 = lat2 then ((11 : ℚ) : WithTop ℚ) else ((111000 : ℚ) : WithTop ℚ)

/-- A registration attempt for username "alice" about 11 m from the stored
"Alice" (same latitude under `coreGap`). -/
def reqNearAlice : RegisterRequest :=
  { peerId := some ("peer-bob-000002"), username := some ("alice"),
    avatar := some ("B"),
    location := some { latitude := some 40, longitude := some (-73), accuracy := none } }

/-- The same attempt about 111 km away (different latitude under `coreGap`). -/
def reqFarAlice : RegisterRequest :=
  { peerId := some ("peer-bob-000002"), username := some ("alice"),
    avatar := some ("B"),
    location := some { latitude := some 41, longitude := some (-73), accuracy := none } }

/-- Witness for C2: registering "alice" 11 m from the stored "Alice" fails
with `usernameTaken` leaving the registry unchanged; registering 111 km
away succeeds. -/
theorem register_username_uniqueness_witness :
    register coreGap 2000 ("ip") ("ua") reqNearAlice [aliceP] =
      (.error .usernameTaken, [aliceP]) ∧
    ∃ ok reg2, register coreGap 2000 ("ip") ("ua") reqFarAlice [aliceP] =
      (.ok ok, reg2) := by
  constructor
  · exact (register_username_uniqueness coreGap 2000 ("ip") ("ua") reqNearAlice
      [aliceP] ("peer-bob-000002") ("alice") ("B")
      { latitude := some 40, longitude := some (-73), accuracy := none } 40 (-73)
      rfl (by decide) rfl (by decide) (by decide) (by decide) rfl rfl rfl
      (by decide) rfl (by decide)).1
      aliceP (by decide) (by decide) (by decide) (by decide)
  · exact (register_username_uniqueness coreGap 2000 ("ip") ("ua") reqFarAlice
      [aliceP] ("peer-bob-000002") ("alice") ("B")
      { latitude := some 41, longitude := some (-73), accuracy := none } 41 (-73)
      rfl (by decide) rfl (by decide) (by decide) (by decide) rfl rfl rfl
      (by decide) rfl (by decide)).2
      (by decide)

/-! ### C9: validation order (refinement against the spec's check list) -/

/-- The specification's error taxonomy for registration (§4.3): one name per
numbered check; both location-shaped failures are `invalidLocation`. -/
inductive SpecError where
  | invalidPeerId
  | missingUsername
  | usernameLengthInvalid
  | usernameCharsInvalid
  | invalidLocation
  | invalidAvatar
  | usernameTaken
deriving DecidableEq, Repr

/-- Map each code error response onto the specification's taxonomy: the two
location messages ('Valid location coordinates are required' and 'Invalid
coordinate values') are both the spec's `InvalidLocation`. -/
def specErrorOf : RegError → SpecError
  | .invalidPeerId => .invalidPeerId
  | .usernameRequired => .missingUsername
  | .usernameLengthInvalid => .usernameLengthInvalid
  | .usernameCharsInvalid => .usernameCharsInvalid
  | .locationRequired => .invalidLocation
  | .invalidCoordinates => .invalidLocation
  | .invalidAvatar => .invalidAvatar
  | .usernameTaken => .usernameTaken

/-- Spec check 1: `peerId` is a string of length ≥ 10. -/
def specCheck1 (req : RegisterRequest) : Bool :=
  match req.peerId with
  | some s => 10 ≤ s.length
  | none => false

/-- Spec check 2 as the claim words it: `username` present and a string. -/
def specCheck2Claimed (req : RegisterRequest) : Bool :=
  req.username.isSome

/-- Spec check 2 as amended: present, a string, and non-empty (JS
truthiness: `!username` also rejects the empty string). -/
def specCheck2 (req : RegisterRequest) : Bool :=
  match req.username with
  | some u => u != ""
  | none => false

/-- Spec check 3: trimmed username length within [3, 20]. -/
def specCheck3 (req : RegisterRequest) : Bool :=
  match req.username with
  | some u => decide (MIN_USERNAME_LENGTH ≤ (jsTrim u).length ∧
      (jsTrim u).length ≤ MAX_USERNAME_LENGTH)
  | none => false

/-- Spec check 4: trimmed username matches `[A-Za-z0-9 _.\-]+`. -/
def specCheck4 (req : RegisterRequest) : Bool :=
  match req.username with
  | some u => usernameCharsOk (jsTrim u)
  | none => false

/-- Spec check 5: latitude/longitude numeric and in range. -/
def specCheck5 (req : RegisterRequest) : Bool :=
  match req.location with
  | some l =>
    match l.latitude, l.longitude with
    | some lat, some lon => decide (|lat| ≤ 90 ∧ |lon| ≤ 180)
    | _, _ => false
  | none => false

/-- Spec check 6: avatar a non-empty string of at most 10 characters. -/
def specCheck6 (req : RegisterRequest) : Bool :=
  match req.avatar with
  | some a => (a != "") && decide (a.length ≤ 10)
  | none => false

/-- Spec check 7: no other active record holds the same case-insensitive
(trimmed) username within 1000 m. -/
def specCheck7 (core : DistCore) (req : RegisterRequest) (reg : Registry) : Bool :=
  !(reg.any (fun p =>
      (jsToLower p.username == jsToLower (jsTrim (req.username.getD ""))) &&
      (p.peerId != req.peerId.getD "") &&
      decide (calculateDistance ⊤ core (some p.location.toRaw)
        (some (req.location.getD default)) < ((1000 : ℚ) : WithTop ℚ))))

/-- The first failing check of the spec's ordered list, parameterized by the
reading of check 2. -/
def specFirstErrorWith (c2 : RegisterRequest → Bool) (core : DistCore)
    (req : RegisterRequest) (reg : Registry) : Option SpecError :=
  if ¬ specCheck1 req then some .invalidPeerId
  else if ¬ c2 req then some .missingUsername
  else if ¬ specCheck3 req then some .usernameLengthInvalid
  else if ¬ specCheck4 req then some .usernameCharsInvalid
  else if ¬ specCheck5 req then some .invalidLocation
  else if ¬ specCheck6 req then some .invalidAvatar
  else if ¬ specCheck7 core req reg then some .usernameTaken
  else none

/-- The validation order exactly as the claim words it (check 2 is mere
presence). -/
def specFirstErrorClaimed : DistCore → RegisterRequest → Registry → Option SpecError :=
  specFirstErrorWith specCheck2Claimed

/-- The validation order as amended (check 2 also rejects the empty
string). -/
def specFirstError : DistCore → RegisterRequest → Registry → Option SpecError :=
  specFirstErrorWith specCheck2

/-- An otherwise valid request whose username is the empty string. -/
def reqEmptyUsername : RegisterRequest :=
  { peerId := some ("peer-good-000001"), username := some (""),
    avatar := some ("ok"),
    location := some { latitude := some 0, longitude := some 0, accuracy := none } }

/-- C9 counterexample: for an empty-string username the claim's check order
(username "present and a string" at check 2) predicts
`UsernameLengthInvalid` from check 3, but the code answers
'Username is required' (`MissingUsername`), because `!username` is true for
the falsy empty string. -/
theorem validation_order_counterexample :
    specFirstErrorClaimed coreByLat reqEmptyUsername [] =
      some SpecError.usernameLengthInvalid ∧
    (registerError coreByLat reqEmptyUsername []).map specErrorOf =
      some SpecError.missingUsername ∧
    SpecError.usernameLengthInvalid ≠ SpecError.missingUsername := by
  refine ⟨by decide, by decide, by decide⟩

/-- C9 (amended): the registration validation chain short-circuits in the
spec's fixed order — with check 2 also rejecting the empty string (JS
truthiness) — and the reported error is exactly that of the earliest
failing check; on every failure the registry is unchanged. -/
theorem validation_first_error :
    ∀ (core : DistCore) (req : RegisterRequest) (reg : Registry),
      (registerError core req reg).map specErrorOf = specFirstError core req reg
      ∧ (∀ (now : ℤ) (ip ua : String) (e : RegError),
          (register core now ip ua req reg).1 = .error e →
          (register core now ip ua req reg).2 = reg) := by
  intro core req reg
  constructor
  · obtain ⟨opid, ouser, oav, oloc⟩ := req
    rcases opid with _ | pid
    · rfl
    · by_cases h1 : pid.length < 10
      · have hs1 : specCheck1 ⟨some pid, ouser, oav, oloc⟩ = false := by
          simp only [specCheck1]
          exact decide_eq_false (by omega)
        simp [registerError, specFirstError, specFirstErrorWith, specErrorOf, h1, hs1]
      · have hs1 : specCheck1 ⟨some pid, ouser, oav, oloc⟩ = true := by
          simp only [specCheck1]
          exact decide_eq_true (by omega)
        rcases ouser with _ | u
        · simp [registerError, specFirstError, specFirstErrorWith, specErrorOf,
            h1, hs1, specCheck2]
        · by_cases h2 : u = ""
          · subst h2
            have hs2 : specCheck2 ⟨some pid, some (""), oav, oloc⟩ = false := by
              simp [specCheck2]
            simp [registerError, specFirstError, specFirstErrorWith, specErrorOf,
              h1, hs1, hs2]
          · have hs2 : specCheck2 ⟨some pid, some u, oav, oloc⟩ = true := by
              simp [specCheck2, h2]
            by_cases h3 : (jsTrim u).length < MIN_USERNAME_LENGTH ∨
                MAX_USERNAME_LENGTH < (jsTrim u).length
            · have hs3 : specCheck3 ⟨some pid, some u, oav, oloc⟩ = false := by
                simp only [specCheck3]
                refine decide_eq_false ?_
                rw [MIN_USERNAME_LENGTH, MAX_USERNAME_LENGTH] at *
                omega
              simp [registerError, specFirstError, specFirstErrorWith, specErrorOf,
                h1, hs1, h2, hs2, h3, hs3]
            · have hs3 : specCheck3 ⟨some pid, some u, oav, oloc⟩ = true := by
                simp only [specCheck3]
                refine decide_eq_true ?_
                rw [MIN_USERNAME_LENGTH, MAX_USERNAME_LENGTH] at *
                omega
              by_cases h4 : usernameCharsOk (jsTrim u) = true
              · have hs4 : specCheck4 ⟨some pid, some u, oav, oloc⟩ = true := by
                  simp [specCheck4, h4]
                rcases oloc with _ | rawLoc
                · simp [registerError, specFirstError, specFirstErrorWith, specErrorOf,
                    h1, hs1, h2, hs2, h3, hs3, h4, hs4, specCheck5]
                · obtain ⟨olat, olon, oacc⟩ := rawLoc
                  rcases olat with _ | lat
                  · simp [registerError, specFirstError, specFirstErrorWith, specErrorOf,
                      h1, hs1, h2, hs2, h3, hs3, h4, hs4, specCheck5]
                  · rcases olon with _ | lon
                    · simp [registerError, specFirstError, specFirstErrorWith, specErrorOf,
                        h1, hs1, h2, hs2, h3, hs3, h4, hs4, specCheck5]
                    · by_cases h5 : 90 < |lat| ∨ 180 < |lon|
                      · have hs5 : specCheck5 ⟨some pid, some u, oav,
                            some ⟨some lat, some lon, oacc⟩⟩ = false := by
                          simp only [specCheck5]
                          refine decide_eq_false ?_
                          rintro ⟨ha, hb⟩
                          rcases h5 with h5 | h5
                          · exact absurd ha (not_le.mpr h5)
                          · exact absurd hb (not_le.mpr h5)
                        simp [registerError, specFirstError, specFirstErrorWith, specErrorOf,
                          h1, hs1, h2, hs2, h3, hs3, h4, hs4, h5, hs5]
                      · have h5' := not_or.mp h5
                        have hs5 : specCheck5 ⟨some pid, some u, oav,
                            some ⟨some lat, some lon, oacc⟩⟩ = true := by
                          simp only [specCheck5]
                          exact decide_eq_true ⟨le_of_not_lt h5'.1, le_of_not_lt h5'.2⟩
                        rcases oav with _ | av
                        · simp [registerError, specFirstError, specFirstErrorWith, specErrorOf,
                            h1, hs1, h2, hs2, h3, hs3, h4, hs4, h5, hs5, specCheck6]
                        · by_cases h6 : av = "" ∨ 10 < av.length
                          · have hs6 : specCheck6 ⟨some pid, some u, some av,
                                some ⟨some lat, some lon, oacc⟩⟩ = false := by
                              rcases h6 with h6 | h6
                              · simp [specCheck6, h6]
                              · have hd : decide (av.length ≤ 10) = false :=
                                  decide_eq_false (by omega)
                                simp [specCheck6, hd]
                            simp [registerError, specFirstError, specFirstErrorWith, specErrorOf,
                              h1, hs1, h2, hs2, h3, hs3, h4, hs4, h5, hs5, h6, hs6]
                          · have h6' := not_or.mp h6
                            have hs6 : specCheck6 ⟨some pid, some u, some av,
                                some ⟨some lat, some lon, oacc⟩⟩ = true := by
                              have hd : decide (av.length ≤ 10) = true :=
                                decide_eq_true (by omega)
                              simp [specCheck6, bne_iff_ne, h6'.1, hd]
                            have hs7 : specCheck7 core ⟨some pid, some u, some av,
                                some ⟨some lat, some lon, oacc⟩⟩ reg =
                                !(usernameTakenBy core (jsTrim u) pid
                                  ⟨some lat, some lon, oacc⟩ reg).isSome := by
                              rw [specCheck7, usernameTakenBy, find?_isSome_eq_any]
                              rfl
                            by_cases h7 : (usernameTakenBy core (jsTrim u) pid
                                ⟨some lat, some lon, oacc⟩ reg).isSome = true
                            · simp [registerError, specFirstError, specFirstErrorWith, specErrorOf,
                                h1, hs1, h2, hs2, h3, hs3, h4, hs4, h5, hs5, h6, hs6, hs7, h7]
                            · simp [registerError, specFirstError, specFirstErrorWith, specErrorOf,
                                h1, hs1, h2, hs2, h3, hs3, h4, hs4, h5, hs5, h6, hs6, hs7, h7]
              · have hs4 : specCheck4 ⟨some pid, some u, oav, oloc⟩ = false := by
                  simp only [specCheck4]
                  simpa using h4
                simp [registerError, specFirstError, specFirstErrorWith, specErrorOf,
                  h1, hs1, h2, hs2, h3, hs3, h4, hs4]
  · intro now ip ua e h
    rcases hre : registerError core req reg with _ | e2
    · rw [register_of_ok hre] at h
      exact absurd h (by simp)
    · rw [register_of_error hre]

/-- Witness for C9 (amended) at a concrete request failing check 3 and a
concrete failed registration leaving the registry unchanged. -/
theorem validation_first_error_witness :
    ((registerError coreByLat reqEmptyUsername []).map specErrorOf =
      specFirstError coreByLat reqEmptyUsername []) ∧
    (register coreByLat 1000 ("ip") ("ua") reqEmptyUsername [aliceP]).2 = [aliceP] :=
  ⟨(validation_first_error coreByLat reqEmptyUsername []).1,
   (validation_first_error coreByLat reqEmptyUsername [aliceP]).2 1000 ("ip") ("ua")
     RegError.usernameRequired (by rfl)⟩

/-! ### C8: symmetry of the haversine distance -/

/-- `Math.atan2(y, x)` for finite arguments: the angle of the point
`(x, y)`, by the usual case split. -/
noncomputable def atan2 (y x : ℝ) : ℝ :=
  if 0 < x then Real.arctan (y / x)
  else if x < 0 ∧ 0 ≤ y then Real.arctan (y / x) + Real.pi
  else if x < 0 then Real.arctan (y / x) - Real.pi
  else if 0 < y then Real.pi / 2
  else if y < 0 then -(Real.pi / 2)
  else 0

/-- The quantity `a` of the haversine formula:
`sin²(Δφ/2) + cos φ₁ · cos φ₂ · sin²(Δλ/2)`, with the latitudes and
longitudes converted from degrees (`x * Math.PI / 180`). -/
noncomputable def havA (lat1 lon1 lat2 lon2 : ℝ) : ℝ :=
  Real.sin ((lat2 - lat1) * Real.pi / 180 / 2) *
    Real.sin ((lat2 - lat1) * Real.pi / 180 / 2) +
  Real.cos (lat1 * Real.pi / 180) * Real.cos (lat2 * Real.pi / 180) *
    Real.sin ((lon2 - lon1) * Real.pi / 180 / 2) *
    Real.sin ((lon2 - lon1) * Real.pi / 180 / 2)

/-- The formula branch of `calculateDistance` over the reals: `R = 6371000`,
`c = 2 · atan2(√a, √(1 − a))`, result `Math.max(0, R · c)`. -/
noncomputable def haversineDistance (lat1 lon1 lat2 lon2 : ℝ) : ℝ :=
  max 0 (6371000 *
    (2 * atan2 (Real.sqrt (havA lat1 lon1 lat2 lon2))
      (Real.sqrt (1 - havA lat1 lon1 lat2 lon2))))

/-- `calculateDistance` with the real haversine core (the rational request
coordinates are read as reals). -/
noncomputable def calculateDistanceR (loc1 loc2 : Option RawLocation) : WithTop ℝ :=
  calculateDistance ⊤
    (fun lat1 lon1 lat2 lon2 =>
      ((haversineDistance (lat1 : ℝ) (lon1 : ℝ) (lat2 : ℝ) (lon2 : ℝ) : ℝ) : WithTop ℝ))
    loc1 loc2

/-- The haversine `a` is symmetric in its two coordinate pairs: `sin` is odd
and enters squared, and the cosine product commutes. -/
theorem havA_symm (p q r s : ℝ) : havA p q r s = havA r s p q := by
  unfold havA
  have e1 : ((p - r) * Real.pi / 180 / 2 : ℝ) = -((r - p) * Real.pi / 180 / 2) := by
    ring
  have e2 : ((q - s) * Real.pi / 180 / 2 : ℝ) = -((s - q) * Real.pi / 180 / 2) := by
    ring
  simp only [e1, e2, Real.sin_neg]
  ring

/-- The haversine distance is symmetric in its two coordinate pairs. -/
theorem haversineDistance_symm (p q r s : ℝ) :
    haversineDistance p q r s = haversineDistance r s p q := by
  unfold haversineDistance
  rw [havA_symm]

/-- A raw location is valid when both coordinates are numeric and within
[-90, 90] / [-180, 180] (the complement of `calculateDistance`'s guards). -/
def validRawLocation (r : RawLocation) : Bool :=
  (match r.latitude with
   | some lat => decide (|lat| ≤ 90)
   | none => false) &&
  (match r.longitude with
   | some lon => decide (|lon| ≤ 180)
   | none => false)

/-- C8: for every pair of valid coordinates the real haversine
`calculateDistance` is symmetric — exactly, hence within any floating-point
tolerance. -/
theorem calculateDistanceR_symm (l1 l2 : RawLocation)
    (h1 : validRawLocation l1 = true) (h2 : validRawLocation l2 = true) :
    calculateDistanceR (some l1) (some l2) = calculateDistanceR (some l2) (some l1) := by
  obtain ⟨olat1, olon1, oacc1⟩ := l1
  obtain ⟨olat2, olon2, oacc2⟩ := l2
  rcases olat1 with _ | lat1
  · exact absurd h1 (by simp [validRawLocation])
  rcases olon1 with _ | lon1
  · exact absurd h1 (by simp [validRawLocation])
  rcases olat2 with _ | lat2
  · exact absurd h2 (by simp [validRawLocation])
  rcases olon2 with _ | lon2
  · exact absurd h2 (by simp [validRawLocation])
  simp only [validRawLocation, Bool.and_eq_true, decide_eq_true_eq] at h1 h2
  simp only [calculateDistanceR, calculateDistance]
  have g1 : ¬ ((90 : ℚ) < |lat1| ∨ 90 < |lat2| ∨ 180 < |lon1| ∨ 180 < |lon2|) := by
    simp only [not_or, not_lt]
    exact ⟨h1.1, h2.1, h1.2, h2.2⟩
  have g2 : ¬ ((90 : ℚ) < |lat2| ∨ 90 < |lat1| ∨ 180 < |lon2| ∨ 180 < |lon1|) := by
    simp only [not_or, not_lt]
    exact ⟨h2.1, h1.1, h2.2, h1.2⟩
  rw [if_neg g1, if_neg g2, haversineDistance_symm]

/-- Witness for C8 at the concrete valid pair (40, −73) / (41, −72). -/
theorem calculateDistanceR_symm_witness :
    calculateDistanceR
        (some { latitude := some 40, longitude := some (-73), accuracy := none })
        (some { latitude := some 41, longitude := some (-72), accuracy := none }) =
      calculateDistanceR
        (some { latitude := some 41, longitude := some (-72), accuracy := none })
        (some { latitude := some 40, longitude := some (-73), accuracy := none }) :=
  calculateDistanceR_symm
    { latitude := some 40, longitude := some (-73), accuracy := none }
    { latitude := some 41, longitude := some (-72), accuracy := none }
    (by decide) (by decide)

end LetTalky
